import Mathlib

/-!
Shallow embedding of the Vector remote-control session controller
(`src/VectorRC.py`): intent state, motion policy, action queue, key and
mouse handling, and the Flask request handlers, together with theorems
checking the specification's claims against this embedding.

Conventions of the embedding:
* Python booleans (and the 0/1 integers used interchangeably with them)
  become `Bool`; arithmetic on them goes through `b2r`.
* Python floats become `Rat` (all constants of the program are exact).
* Python key codes (`ord('W')` etc.) become their numeric values
  (87 = W, 83 = S, 65 = A, 68 = D, 82 = R, 70 = F, 84 = T, 71 = G,
  72 = H, 32 = space, 48..57 = digits).
* A Python statement that would raise becomes `Except.error ()`.
* Calls into the robot API (motor commands, docking, speech, animation)
  are externally observable effects; the embedding returns them as data
  (`Option` command values, a dock counter, the queued `RCAction`s).
-/

namespace VectorRC

/-- Coerce one of the program's Bool/int intent flags to a number,
as Python arithmetic on booleans does. -/
def b2r (b : Bool) : Rat := if b then 1 else 0

/-- A queued one-shot action: the source stores `(func, args)` pairs where
`func` is `vector.say_text` or `vector.anim.play_animation`. -/
inductive RCAction where
  | say_text (text : String)
  | play_animation (anim_name : String)
deriving DecidableEq

/-- The mutable state of `RemoteControlVector` (the parts the claims are
about; robot handles and the camera feed are external). -/
structure RCState where
  drive_forwards : Bool
  drive_back : Bool
  turn_left : Bool
  turn_right : Bool
  lift_up : Bool
  lift_down : Bool
  head_up : Bool
  head_down : Bool
  torchIsEnabled : Bool
  go_fast : Bool
  go_slow : Bool
  is_mouse_look_enabled : Bool
  mouse_dir : Rat
  anim_names : List String
  anim_index_for_key : List Nat
  action_queue : List RCAction
  text_to_say : String
deriving DecidableEq

/-- `remap_to_range` from the source: clamp `x` into `x_min..x_max`, then
interpolate linearly into `out_min..out_max`. -/
def remap_to_range (x x_min x_max out_min out_max : Rat) : Rat :=
  if x < x_min then out_min
  else if x > x_max then out_max
  else out_min + (x - x_min) / (x_max - x_min) * (out_max - out_min)

/-- `pick_speed` from the source: note that when both `go_fast` and
`go_slow` are set, the inner `if` fails and control falls through to
`return mid_speed`. -/
def pick_speed (s : RCState) (fast_speed mid_speed slow_speed : Rat) : Rat :=
  if s.go_fast then
    if !s.go_slow then fast_speed else mid_speed
  else if s.go_slow then slow_speed
  else mid_speed

/-- `update_mouse_driving` from the source, returning the four arguments
passed to `set_wheel_motors`: left speed, right speed, left accel, right
accel. -/
def update_mouse_driving (s : RCState) : Rat × Rat × Rat × Rat :=
  let drive_dir : Rat := b2r s.drive_forwards - b2r s.drive_back
  let turn_dir0 : Rat := (b2r s.turn_right - b2r s.turn_left) + s.mouse_dir
  let turn_dir : Rat := if drive_dir < 0 then -turn_dir0 else turn_dir0
  let forward_speed := pick_speed s 150 75 50
  let turn_speed := pick_speed s 100 50 30
  let l_wheel_speed := drive_dir * forward_speed + turn_speed * turn_dir
  let r_wheel_speed := drive_dir * forward_speed - turn_speed * turn_dir
  (l_wheel_speed, r_wheel_speed, l_wheel_speed * 4, r_wheel_speed * 4)

/-- `update_lift` from the source, returning the velocity passed to
`set_lift_motor`. -/
def update_lift (s : RCState) : Rat :=
  (b2r s.lift_up - b2r s.lift_down) * pick_speed s 8 4 2

/-- `update_head` from the source, returning the velocity passed to
`set_head_motor`; while mouse-look is enabled no head command is issued. -/
def update_head (s : RCState) : Option Rat :=
  if s.is_mouse_look_enabled then none
  else some ((b2r s.head_up - b2r s.head_down) * pick_speed s 2 1 (1/2))

/-- Speed tier as the specification describes it (modelled from the
spec's words, for comparison with `pick_speed`). -/
inductive Tier where
  | Fast
  | Normal
  | Slow
deriving DecidableEq

/-- Spec-side tier selection table: both flags set gives Normal, Fast only
when `go_slow` is unset, both unset gives Normal. -/
def speed_tier (go_fast go_slow : Bool) : Tier :=
  match go_fast, go_slow with
  | true, true => Tier.Normal
  | true, false => Tier.Fast
  | false, true => Tier.Slow
  | false, false => Tier.Normal

/-- Selects the argument a tier names. -/
def tier_value (t : Tier) (fast mid slow : Rat) : Rat :=
  match t with
  | Tier.Fast => fast
  | Tier.Normal => mid
  | Tier.Slow => slow

/-- Spec-side `wheel_command` (modelled from the spec's words, §4.1):
tier tables Fast 150/100, Normal 75/50, Slow 50/30, `turn_dir` negated
when reversing, accelerations four times the respective speed. -/
def wheel_command (drive_dir turn_dir : Rat) (t : Tier) : Rat × Rat × Rat × Rat :=
  let forward_speed := tier_value t 150 75 50
  let turn_speed := tier_value t 100 50 30
  let td := if drive_dir < 0 then -turn_dir else turn_dir
  let l := drive_dir * forward_speed + turn_speed * td
  let r := drive_dir * forward_speed - turn_speed * td
  (l, r, l * 4, r * 4)

/-- `queue_action` from the source: `pop(0)` when more than 10 entries are
already queued, then append the new action. -/
def queue_action (q : List RCAction) (new_action : RCAction) : List RCAction :=
  if q.length > 10 then q.tail ++ [new_action] else q ++ [new_action]

/-- `update` from the source (the per-poll tick): dispatch the head action
if any; pop it exactly when the dispatch call reports completion.
The dispatch call itself is the external robot API, passed as `dispatch`. -/
def update (dispatch : RCAction → Bool) (q : List RCAction) : List RCAction :=
  match q with
  | [] => []
  | queued_action :: rest =>
      if dispatch queued_action then rest else queued_action :: rest

/-- One operation touching the action queue: an enqueue from a key
release, or a tick whose head dispatch behaves like `dispatch`. -/
inductive QOp where
  | enq (a : RCAction)
  | tick (dispatch : RCAction → Bool)

/-- Apply one queue operation. -/
def apply_qop (q : List RCAction) : QOp → List RCAction
  | QOp.enq a => queue_action q a
  | QOp.tick d => update d q

/-- Run a sequence of queue operations from the empty queue the session
starts with. -/
def run_qops (ops : List QOp) : List RCAction :=
  ops.foldl apply_qop []

/-- `key_code_to_anim_name` from the source: subtract `ord('0')`, index
the binding table, then the catalog. The source's bare list indexing
becomes an `Option`; `none` is the `IndexError` path. (It is only called
with digit key codes, so the Nat subtraction matches Python.) -/
def key_code_to_anim_name (s : RCState) (key_code : Nat) : Option String :=
  let key_num := key_code - 48
  match s.anim_index_for_key.get? key_num with
  | none => none
  | some anim_num => s.anim_names.get? anim_num

/-- `set_anim` from the source: store the supplied index, no validation. -/
def set_anim (s : RCState) (key_index anim_index : Nat) : RCState :=
  { s with anim_index_for_key := s.anim_index_for_key.set key_index anim_index }

/-- `update_drive_state` from the source: W/S/A/D write the matching flag
and report a driving update; any other key reports one only when the
speed tier changed. -/
def update_drive_state (s : RCState) (key_code : Nat) (is_key_down : Bool)
    (speed_changed : Bool) : RCState × Bool :=
  if key_code = 87 then ({ s with drive_forwards := is_key_down }, true)
  else if key_code = 83 then ({ s with drive_back := is_key_down }, true)
  else if key_code = 65 then ({ s with turn_left := is_key_down }, true)
  else if key_code = 68 then ({ s with turn_right := is_key_down }, true)
  else (s, speed_changed)

/-- `update_lift_state` from the source (R/F keys). -/
def update_lift_state (s : RCState) (key_code : Nat) (is_key_down : Bool)
    (speed_changed : Bool) : RCState × Bool :=
  if key_code = 82 then ({ s with lift_up := is_key_down }, true)
  else if key_code = 70 then ({ s with lift_down := is_key_down }, true)
  else (s, speed_changed)

/-- `update_head_state` from the source (T/G keys). -/
def update_head_state (s : RCState) (key_code : Nat) (is_key_down : Bool)
    (speed_changed : Bool) : RCState × Bool :=
  if key_code = 84 then ({ s with head_up := is_key_down }, true)
  else if key_code = 71 then ({ s with head_down := is_key_down }, true)
  else (s, speed_changed)

/-- `make_vector_dock_with_charger` from the source: fires the docking
behavior exactly when the key code is H (72), ignoring press/release, and
always returns `True`. First component: whether the docking side effect
fired on this call; second: the Python return value. -/
def make_vector_dock_with_charger (key_code : Nat) : Bool × Bool :=
  (key_code = 72, true)

/-- The externally observable effects of one `handle_key` call: the wheel
command (if driving was updated), the head and lift motor commands
likewise, and how many times the docking behavior fired. -/
structure KeyEffects where
  wheels : Option (Rat × Rat × Rat × Rat)
  head : Option Rat
  lift : Option Rat
  dock_count : Nat
deriving DecidableEq

/-- `handle_key` from the source. Effects are always produced before the
key-release block runs; the resulting state is `Except.error ()` when the
digit-release animation lookup raises (out-of-range binding, cf. C10).
Note the source calls `make_vector_dock_with_charger` twice: once on the
assignment line and once more in the `if` block guarded by its (always
true) return value. -/
def handle_key (s : RCState) (key_code : Nat)
    (is_shift_down is_alt_down is_key_down : Bool) :
    KeyEffects × Except Unit RCState :=
  let was_go_fast := s.go_fast
  let was_go_slow := s.go_slow
  let s1 := { s with go_fast := is_shift_down, go_slow := is_alt_down }
  let speed_changed := (was_go_fast != s1.go_fast) || (was_go_slow != s1.go_slow)
  let dr := update_drive_state s1 key_code is_key_down speed_changed
  let li := update_lift_state dr.1 key_code is_key_down speed_changed
  let he := update_head_state li.1 key_code is_key_down speed_changed
  let s4 := he.1
  let call1 := make_vector_dock_with_charger key_code
  let wheels := if dr.2 then some (update_mouse_driving s4) else none
  let headE := if he.2 then update_head s4 else none
  let liftE := if li.2 then some (update_lift s4) else none
  let call2_fired :=
    if call1.2 then (make_vector_dock_with_charger key_code).1 else false
  let dock_count :=
    (if call1.1 then 1 else 0) + (if call2_fired then 1 else 0)
  let st : Except Unit RCState :=
    if !is_key_down then
      if 48 ≤ key_code ∧ key_code ≤ 57 then
        match key_code_to_anim_name s4 key_code with
        | some anim_name =>
            Except.ok { s4 with
              action_queue :=
                queue_action s4.action_queue (RCAction.play_animation anim_name) }
        | none => Except.error ()
      else if key_code = 32 then
        Except.ok { s4 with
          action_queue :=
            queue_action s4.action_queue (RCAction.say_text s4.text_to_say) }
      else Except.ok s4
    else Except.ok s4
  (⟨wheels, headE, liftE, dock_count⟩, st)

/-- `handle_mouse` from the source: a no-op unless mouse-look is enabled;
otherwise store the remapped turn offset, emit a wheel command, and emit
a proportional head-velocity nudge computed against the robot's current
head angle (`head_angle_deg`, external input, in degrees).
`mouse_sensitivity = 1.5 = 3/2`, head gain `0.03 = 3/100`. -/
def handle_mouse (s : RCState) (mouse_x mouse_y head_angle_deg : Rat) :
    RCState × Option (Rat × Rat × Rat × Rat) × Option Rat :=
  if s.is_mouse_look_enabled then
    let s1 := { s with mouse_dir := remap_to_range mouse_x 0 1 (-(3/2)) (3/2) }
    let desired_head_angle := remap_to_range mouse_y 0 1 45 (-25)
    let head_vel := (desired_head_angle - head_angle_deg) * (3/100)
    (s1, some (update_mouse_driving s1), some head_vel)
  else (s, none, none)

/-- `set_mouse_look_enabled` from the source: turning the mode off zeroes
the mouse turn offset, and when it actually was on, re-emits one wheel
command and one head command from the cleared state. -/
def set_mouse_look_enabled (s : RCState) (is_mouse_look_enabled : Bool) :
    RCState × Option (Rat × Rat × Rat × Rat) × Option Rat :=
  let was_mouse_look_enabled := s.is_mouse_look_enabled
  let s1 := { s with is_mouse_look_enabled := is_mouse_look_enabled }
  if !is_mouse_look_enabled then
    let s2 := { s1 with mouse_dir := 0 }
    if was_mouse_look_enabled then
      (s2, some (update_mouse_driving s2), update_head s2)
    else (s2, none, none)
  else (s1, none, none)

/-- The blocklist of test animations hidden from the catalog. -/
def bad_anim_names : List String :=
  ["ANIMATION_TEST", "soundTestAnim"]

/-- Catalog construction from `__init__`: sort the robot-supplied list of
animation names, then keep those not in the blocklist (the source's
append loop is exactly a filter). -/
def build_anim_names (all_anim_names : List String) : List String :=
  (all_anim_names.mergeSort (fun a b => a ≤ b)).filter
    (fun anim_name => !(bad_anim_names.contains anim_name))

/-- The configured default animation names for key slots 0..9. -/
def default_anims_for_keys : List String :=
  ["anim_turn_left_01",
   "anim_blackjack_victorwin_01",
   "anim_pounce_success_02",
   "anim_feedback_shutup_01",
   "anim_knowledgegraph_success_01",
   "anim_wakeword_groggyeyes_listenloop_01",
   "anim_fistbump_success_01",
   "anim_reacttoface_unidentified_01",
   "anim_rtpickup_loop_10",
   "anim_volume_stage_05"]

/-- Binding-table construction from `__init__`: for each slot `kI`, the
catalog index of the configured default name when `anim_names.index`
succeeds, and the (logged) fallback `anim_idx = kI` when it raises
`ValueError`. -/
def build_anim_index_for_key (anim_names : List String) : List Nat :=
  default_anims_for_keys.enum.map
    (fun p =>
      if anim_names.contains p.2 then anim_names.indexOf p.2 else p.1)

/-- The controller state `__init__` leaves behind, as a function of the
robot-supplied animation list (everything else is fixed). -/
def init_state (all_anim_names : List String) : RCState :=
  { drive_forwards := false
    drive_back := false
    turn_left := false
    turn_right := false
    lift_up := false
    lift_down := false
    head_up := false
    head_down := false
    torchIsEnabled := false
    go_fast := false
    go_slow := false
    is_mouse_look_enabled := false
    mouse_dir := 0
    anim_names := build_anim_names all_anim_names
    anim_index_for_key := build_anim_index_for_key (build_anim_names all_anim_names)
    action_queue := []
    text_to_say := "Hi I\x27m Vector" }

/-- `func_to_name` from the source (function-identity dispatch becomes
the tag of `RCAction`). -/
def func_to_name (a : RCAction) : String :=
  match a with
  | RCAction.say_text _ => "say_text"
  | RCAction.play_animation _ => "play_anim"

/-- `action_to_text` from the source. -/
def action_to_text (a : RCAction) : String :=
  let args :=
    match a with
    | RCAction.say_text text => text
    | RCAction.play_animation anim_name => anim_name
  func_to_name a ++ "( " ++ args ++ " )"

/-!
The Flask request handlers. The session slot
`flask_app.remote_control_vector` is an `Option RCState`; `none` is the
not-yet-initialized session every handler may be hit with. A handler that
would raise on a request returns `Except.error ()`. Effects on the
external robot (eye color, screen, freeplay control, motors) are not part
of the modelled state; what matters for the claims is whether the handler
faults and how it changes the controller state.
-/

/-- `handle_key_event` (backing `/keydown` and `/keyup`). -/
def handle_key_event (s : Option RCState) (key_code : Nat)
    (hasShift hasAlt is_key_down : Bool) : Except Unit (Option RCState) :=
  match s with
  | none => Except.ok none
  | some c =>
      match (handle_key c key_code hasShift hasAlt is_key_down).2 with
      | Except.ok c2 => Except.ok (some c2)
      | Except.error e => Except.error e

/-- `/mousemove` handler. -/
def handle_mousemove (s : Option RCState) (clientX clientY head_angle_deg : Rat) :
    Except Unit (Option RCState) :=
  match s with
  | none => Except.ok none
  | some c => Except.ok (some (handle_mouse c clientX clientY head_angle_deg).1)

/-- `/setMouseLookEnabled` handler. -/
def handle_setMouseLookEnabled (s : Option RCState) (isMouseLookEnabled : Bool) :
    Except Unit (Option RCState) :=
  match s with
  | none => Except.ok none
  | some c => Except.ok (some (set_mouse_look_enabled c isMouseLookEnabled).1)

/-- `/setTorchModeEnabled` handler. Unlike every other mutating handler,
the source assigns `flask_app.remote_control_vector.torchIsEnabled`
without first checking the session slot, so with no session the attribute
access raises. (The `setTorchMode()` display side effects it then
triggers are external and, on the enabled path, self-retriggering; they
do not touch the modelled state.) -/
def handle_setTorchModeEnabled (s : Option RCState) (isTorchModeEnabled : Bool) :
    Except Unit (Option RCState) :=
  match s with
  | none => Except.error ()
  | some c => Except.ok (some { c with torchIsEnabled := isTorchModeEnabled })

/-- `/setFreeplayEnabled` handler: guarded; its effect (releasing or
requesting robot control) is external, the controller state is unchanged. -/
def handle_setFreeplayEnabled (s : Option RCState) (isFreeplayEnabled : Bool) :
    Except Unit (Option RCState) :=
  match s with
  | none => Except.ok none
  | some c => Except.ok (some c)

/-- `/dropDownSelect` handler: guarded by the session check (Python `and`
short-circuits) and by the `itemName` having the expected form; the
source's `int(...)` raises on a non-numeric suffix. -/
def handle_dropDownSelect (s : Option RCState) (itemName : String)
    (selectedIndex : Nat) : Except Unit (Option RCState) :=
  match s with
  | none => Except.ok none
  | some c =>
      if itemName.startsWith ("animSelector") then
        match (itemName.drop 12).toNat? with
        | some item_name_index =>
            Except.ok (some (set_anim c item_name_index selectedIndex))
        | none => Except.error ()
      else Except.ok (some c)

/-- `/sayText` handler. -/
def handle_sayText (s : Option RCState) (textEntered : String) :
    Except Unit (Option RCState) :=
  match s with
  | none => Except.ok none
  | some c => Except.ok (some { c with text_to_say := textEntered })

/-- `/updateVector` handler: with a session, tick the action queue once
and render it; with none, return the empty string. -/
def handle_updateVector (dispatch : RCAction → Bool) (s : Option RCState) :
    Except Unit (Option RCState × String) :=
  match s with
  | none => Except.ok (none, "")
  | some c =>
      let c2 := { c with action_queue := update dispatch c.action_queue }
      let rendered :=
        (c2.action_queue.enum.map
          (fun p => toString (p.1 + 1) ++ ": " ++ action_to_text p.2 ++ "<br>")).foldl
          (fun acc line => acc ++ line) ""
      Except.ok (some c2, "Action Queue:<br>" ++ rendered ++ "\n")

/-! ## Helper lemmas -/

lemma get?_isSome_iff {α : Type} (l : List α) (n : Nat) :
    (l.get? n).isSome = true ↔ n < l.length := by
  constructor
  · intro h
    by_contra hc
    rw [List.get?_eq_none.2 (by omega)] at h
    simp at h
  · intro h
    rw [List.get?_eq_get h]
    simp

lemma isSome_ite_some {α : Type} (b : Bool) (x : α) :
    (if b then some x else none).isSome = b := by
  cases b <;> simp

lemma indexOf_eq_length_of_not_contains (l : List String) (a : String)
    (h : l.contains a = false) : l.indexOf a = l.length := by
  apply List.indexOf_eq_length.2
  intro hm
  simp at h
  exact h hm

lemma queue_action_length_le (q : List RCAction) (a : RCAction)
    (h : q.length ≤ 11) : (queue_action q a).length ≤ 11 := by
  unfold queue_action
  split
  · simp [List.length_append, List.length_tail]
    omega
  · simp [List.length_append]
    omega

lemma update_length_le (d : RCAction → Bool) (q : List RCAction) :
    (update d q).length ≤ q.length := by
  cases q with
  | nil => simp [update]
  | cons a rest =>
      show (if d a then rest else a :: rest).length ≤ (a :: rest).length
      split <;> simp

lemma foldl_qops_length (ops : List QOp) :
    ∀ q : List RCAction, q.length ≤ 11 →
      (List.foldl apply_qop q ops).length ≤ 11 := by
  induction ops with
  | nil => intro q h; simpa using h
  | cons op rest ih =>
      intro q h
      rw [List.foldl_cons]
      apply ih
      cases op with
      | enq a => exact queue_action_length_le q a h
      | tick d => exact le_trans (update_length_le d q) h

/-! ## Claims -/

/-- Claim C1: for every intent state, `update_mouse_driving` emits exactly
the spec's `wheel_command` of `drive_dir = drive_forwards - drive_back`,
`turn_dir = (turn_right - turn_left) + mouse_dir` and the tier selected
from (go_fast, go_slow) — tier tables Fast 150/100, Normal 75/50,
Slow 50/30, turn direction negated when reversing, accelerations four
times the wheel speeds; in particular `wheel_command 1 0 Normal` is
left = right = 75 with acceleration 300 each. -/
theorem claim1_wheel_command_refines :
    (∀ s : RCState,
      update_mouse_driving s =
        wheel_command (b2r s.drive_forwards - b2r s.drive_back)
          ((b2r s.turn_right - b2r s.turn_left) + s.mouse_dir)
          (speed_tier s.go_fast s.go_slow))
    ∧ wheel_command 1 0 Tier.Normal = (75, 75, 300, 300) := by
  constructor
  · intro s
    obtain ⟨df, db, tl, tr, lu, ld, hu, hd, ti, gf, gs, ml, md, an, ai, aq, tt⟩ := s
    cases gf <;> cases gs <;> rfl
  · show (_, _, _, _) = (_, _, _, _)
    norm_num [wheel_command, tier_value]

/-- Claim C2: the speed tier is a pure function of (go_fast, go_slow):
(true,true) and (false,false) give the middle value, (true,false) the
fast value, (false,true) the slow value; equivalently `pick_speed`
returns the fast argument iff go_fast ∧ ¬go_slow, the slow argument iff
go_slow ∧ ¬go_fast, and the middle argument otherwise. -/
theorem claim2_pick_speed_tier :
    ∀ (s : RCState) (fast mid slow : Rat),
      pick_speed s fast mid slow =
        tier_value (speed_tier s.go_fast s.go_slow) fast mid slow
      ∧ pick_speed s fast mid slow =
        (if s.go_fast && !s.go_slow then fast
         else if s.go_slow && !s.go_fast then slow
         else mid) := by
  intro s fast mid slow
  obtain ⟨df, db, tl, tr, lu, ld, hu, hd, ti, gf, gs, ml, md, an, ai, aq, tt⟩ := s
  cases gf <;> cases gs <;> exact ⟨rfl, rfl⟩

/-- Claim C3: from the empty queue, any sequence of enqueues and ticks
leaves at most 11 actions queued; an enqueue onto a full (11-entry) queue
drops exactly the oldest entry and appends the new one at the tail; and
enqueuing 12 actions leaves exactly the last 11. -/
theorem claim3_queue_bound_evict :
    (∀ ops : List QOp, (run_qops ops).length ≤ 11)
    ∧ (∀ (q : List RCAction) (a : RCAction), q.length = 11 →
        queue_action q a = q.tail ++ [a])
    ∧ (∀ a1 a2 a3 a4 a5 a6 a7 a8 a9 a10 a11 a12 : RCAction,
        run_qops [QOp.enq a1, QOp.enq a2, QOp.enq a3, QOp.enq a4,
          QOp.enq a5, QOp.enq a6, QOp.enq a7, QOp.enq a8, QOp.enq a9,
          QOp.enq a10, QOp.enq a11, QOp.enq a12] =
        [a2, a3, a4, a5, a6, a7, a8, a9, a10, a11, a12]) := by
  refine ⟨?_, ?_, ?_⟩
  · intro ops
    exact foldl_qops_length ops [] (by simp)
  · intro q a h
    unfold queue_action
    rw [if_pos (by omega)]
  · intro a1 a2 a3 a4 a5 a6 a7 a8 a9 a10 a11 a12
    simp [run_qops, apply_qop, queue_action]

/-- Witness for C3's conditional part at a concrete full queue. -/
theorem claim3_queue_witness :
    queue_action (List.replicate 11 (RCAction.say_text ("w")))
        (RCAction.say_text ("v")) =
      (List.replicate 11 (RCAction.say_text ("w"))).tail ++
        [RCAction.say_text ("v")] :=
  claim3_queue_bound_evict.2.1 _ _ (by simp)

/-- Claim C4: one tick removes at most the head: an empty queue is left
empty without fault; a completing head dispatch pops exactly the head,
leaving the rest in order; a non-completing dispatch leaves the queue
unchanged. -/
theorem claim4_tick_head_only :
    (∀ dispatch : RCAction → Bool, update dispatch [] = [])
    ∧ (∀ (dispatch : RCAction → Bool) (a : RCAction) (rest : List RCAction),
        dispatch a = true → update dispatch (a :: rest) = rest)
    ∧ (∀ (dispatch : RCAction → Bool) (a : RCAction) (rest : List RCAction),
        dispatch a = false → update dispatch (a :: rest) = a :: rest) := by
  refine ⟨fun _ => rfl, ?_, ?_⟩
  · intro dispatch a rest h
    simp [update, h]
  · intro dispatch a rest h
    simp [update, h]

/-- Witness for C4's conditional parts at concrete dispatches. -/
theorem claim4_tick_witness :
    update (fun _ => true) [RCAction.say_text ("x")] = []
    ∧ update (fun _ => false) [RCAction.say_text ("x")] =
        [RCAction.say_text ("x")] :=
  ⟨claim4_tick_head_only.2.1 _ _ _ rfl, claim4_tick_head_only.2.2 _ _ _ rfl⟩

/-- Claim C5 (code evaluated at the claim's failing case): with no active
session, every mutating handler except `/setTorchModeEnabled` completes
as a safe no-op, but `/setTorchModeEnabled` assigns an attribute of the
absent controller and faults — contradicting the spec's "every mutating
endpoint is a safe no-op". -/
theorem claim5_no_session_handlers :
    (∀ (key_code : Nat) (hasShift hasAlt is_key_down : Bool),
      handle_key_event none key_code hasShift hasAlt is_key_down =
        Except.ok none)
    ∧ (∀ clientX clientY head_angle_deg : Rat,
        handle_mousemove none clientX clientY head_angle_deg = Except.ok none)
    ∧ (∀ b : Bool, handle_setMouseLookEnabled none b = Except.ok none)
    ∧ (∀ b : Bool, handle_setFreeplayEnabled none b = Except.ok none)
    ∧ (∀ (itemName : String) (selectedIndex : Nat),
        handle_dropDownSelect none itemName selectedIndex = Except.ok none)
    ∧ (∀ textEntered : String,
        handle_sayText none textEntered = Except.ok none)
    ∧ (∀ dispatch : RCAction → Bool,
        handle_updateVector dispatch none = Except.ok (none, ""))
    ∧ (∀ b : Bool, handle_setTorchModeEnabled none b = Except.error ()) :=
  ⟨fun _ _ _ _ => rfl, fun _ _ _ => rfl, fun _ => rfl, fun _ => rfl,
   fun _ _ => rfl, fun _ => rfl, fun _ => rfl, fun _ => rfl⟩

/-! ## Key handling: which axes emit commands (C6) and docking (C7) -/

lemma update_drive_state_flag (s : RCState) (k : Nat) (d c : Bool) :
    (update_drive_state s k d c).2 =
      (decide (k = 87) || decide (k = 83) || decide (k = 65)
        || decide (k = 68) || c) := by
  unfold update_drive_state
  split_ifs <;> simp_all

lemma update_lift_state_flag (s : RCState) (k : Nat) (d c : Bool) :
    (update_lift_state s k d c).2 =
      (decide (k = 82) || decide (k = 70) || c) := by
  unfold update_lift_state
  split_ifs <;> simp_all

lemma update_head_state_flag (s : RCState) (k : Nat) (d c : Bool) :
    (update_head_state s k d c).2 =
      (decide (k = 84) || decide (k = 71) || c) := by
  unfold update_head_state
  split_ifs <;> simp_all

lemma update_drive_state_mouse (s : RCState) (k : Nat) (d c : Bool) :
    (update_drive_state s k d c).1.is_mouse_look_enabled =
      s.is_mouse_look_enabled := by
  unfold update_drive_state
  split_ifs <;> rfl

lemma update_lift_state_mouse (s : RCState) (k : Nat) (d c : Bool) :
    (update_lift_state s k d c).1.is_mouse_look_enabled =
      s.is_mouse_look_enabled := by
  unfold update_lift_state
  split_ifs <;> rfl

lemma update_head_state_mouse (s : RCState) (k : Nat) (d c : Bool) :
    (update_head_state s k d c).1.is_mouse_look_enabled =
      s.is_mouse_look_enabled := by
  unfold update_head_state
  split_ifs <;> rfl

lemma isSome_ite_update_head (b : Bool) (t : RCState) :
    (if b then update_head t else none).isSome =
      (b && !t.is_mouse_look_enabled) := by
  cases b <;> cases h : t.is_mouse_look_enabled <;> simp [update_head, h]

/-- The concrete state the C6 counterexample starts from: a fresh session
(empty robot animation list) in which the W key is already held. -/
def s_hold_w : RCState :=
  { init_state [] with drive_forwards := true }

/-- Counterexample to claim C6 as stated: in `s_hold_w` a repeated
keydown of W (code 87, no shift, no alt) changes nothing — the resulting
state is identical to the starting state, so no intent flag toggled and
the speed tier is unchanged — yet a wheel motor command is emitted. -/
theorem claim6_counterexample :
    (handle_key s_hold_w 87 false false true).2 = Except.ok s_hold_w
    ∧ (handle_key s_hold_w 87 false false true).1.wheels.isSome = true := by
  exact ⟨rfl, rfl⟩

/-- Claim C6 amended: a wheel command is emitted iff the key is one of
W/S/A/D or the speed tier changed (even if the flag it writes keeps its
old value); a lift command iff the key is R/F or the tier changed; a head
command iff the key is T/G or the tier changed, and additionally
mouse-look is off. -/
theorem claim6_emission_amended :
    ∀ (s : RCState) (key_code : Nat) (is_shift_down is_alt_down is_key_down : Bool),
      ((handle_key s key_code is_shift_down is_alt_down is_key_down).1.wheels.isSome
        = (decide (key_code = 87) || decide (key_code = 83)
            || decide (key_code = 65) || decide (key_code = 68)
            || ((s.go_fast != is_shift_down) || (s.go_slow != is_alt_down))))
      ∧ ((handle_key s key_code is_shift_down is_alt_down is_key_down).1.lift.isSome
        = (decide (key_code = 82) || decide (key_code = 70)
            || ((s.go_fast != is_shift_down) || (s.go_slow != is_alt_down))))
      ∧ ((handle_key s key_code is_shift_down is_alt_down is_key_down).1.head.isSome
        = ((decide (key_code = 84) || decide (key_code = 71)
            || ((s.go_fast != is_shift_down) || (s.go_slow != is_alt_down)))
           && !s.is_mouse_look_enabled)) := by
  intro s key_code is_shift_down is_alt_down is_key_down
  simp only [handle_key, isSome_ite_some, isSome_ite_update_head,
    update_drive_state_flag, update_lift_state_flag, update_head_state_flag,
    update_drive_state_mouse, update_lift_state_mouse, update_head_state_mouse]
  refine ⟨?_, ?_, ?_⟩ <;> trivial

/-- Counterexample to claim C7 as stated: releasing H (code 72,
`is_key_down = false`) still fires the dock-with-charger side effect —
twice, in fact — though the claim says docking happens exactly on press
events. -/
theorem claim7_counterexample :
    (handle_key s_hold_w 72 false false false).1.dock_count = 2 := rfl

/-- Claim C7 amended: every `handle_key` call with key code H (72) fires
the docking side effect exactly twice — once when the source calls
`make_vector_dock_with_charger` on the assignment line and once more in
the dispatch block guarded by its always-true return value — regardless
of press or release; any other key code never fires it. -/
theorem claim7_dock_amended :
    ∀ (s : RCState) (key_code : Nat) (is_shift_down is_alt_down is_key_down : Bool),
      (handle_key s key_code is_shift_down is_alt_down is_key_down).1.dock_count =
        if key_code = 72 then 2 else 0 := by
  intro s key_code is_shift_down is_alt_down is_key_down
  simp only [handle_key, make_vector_dock_with_charger]
  by_cases h : key_code = 72 <;> simp [h]

/-! ## Catalog and binding-table construction (C8, C9) -/

lemma build_anim_names_count (names : List String) (n : String) :
    (build_anim_names names).count n =
      if n ∈ bad_anim_names then 0 else names.count n := by
  unfold build_anim_names
  by_cases h : n ∈ bad_anim_names
  · rw [if_pos h]
    apply List.count_eq_zero.2
    intro hm
    rw [List.mem_filter] at hm
    obtain ⟨-, hp⟩ := hm
    simp at hp
    exact hp h
  · rw [if_neg h]
    rw [List.count_filter (by simp [h])]
    exact (List.mergeSort_perm names _).count_eq n

lemma build_anim_names_sorted (names : List String) :
    List.Sorted (fun a b : String => a ≤ b) (build_anim_names names) := by
  unfold build_anim_names
  apply List.Pairwise.filter
  have h := @List.sorted_mergeSort String (fun a b : String => decide (a ≤ b))
    (fun a b c h1 h2 => by
      simp only [decide_eq_true_eq] at *
      exact le_trans h1 h2)
    (fun a b => by simpa using le_total a b)
    names
  exact h.imp (fun hab => by simpa using hab)

lemma build_anim_index_get (A : List String) (kI : Nat) (dk : String)
    (hdk : default_anims_for_keys.get? kI = some dk) :
    (build_anim_index_for_key A).get? kI =
      some (if A.contains dk then A.indexOf dk else kI) := by
  unfold build_anim_index_for_key
  rw [List.get?_map, List.get?_enum, hdk]
  rfl

/-- Counterexample to claim C8 as stated: with an empty catalog (robot
supplies no animations), slot 1's default name is absent, and the slot
falls back to index 1 — not 0 — which moreover is not a valid index into
the (empty) catalog. -/
theorem claim8_counterexample :
    (build_anim_index_for_key (build_anim_names [])).get? 1 = some 1
    ∧ ¬(1 < (build_anim_names []).length) := by
  have h0 : build_anim_names [] = [] := by
    simp [build_anim_names]
  rw [h0]
  exact ⟨rfl, by simp⟩

/-- Claim C8 amended: each key slot stores the catalog index of its
configured default name when that name is present; when the name is
absent the slot falls back (non-fatally, with a logged message) to its
own ordinal `kI` — not to 0. A found index is always valid; a fallback
ordinal is valid only when the catalog is long enough, so all 10 slots
are valid whenever the catalog holds at least 10 names. -/
theorem claim8_binding_amended :
    ∀ (names : List String) (kI : Nat) (dk : String),
      default_anims_for_keys.get? kI = some dk →
      ((build_anim_index_for_key (build_anim_names names)).get? kI =
        some (if (build_anim_names names).contains dk
              then (build_anim_names names).indexOf dk else kI))
      ∧ (10 ≤ (build_anim_names names).length →
          (if (build_anim_names names).contains dk
           then (build_anim_names names).indexOf dk else kI)
            < (build_anim_names names).length) := by
  intro names kI dk hdk
  have hk : kI < 10 := by
    obtain ⟨h, -⟩ := List.get?_eq_some.1 hdk
    simpa [default_anims_for_keys] using h
  refine ⟨build_anim_index_get _ kI dk hdk, ?_⟩
  intro hlen
  by_cases hc : (build_anim_names names).contains dk = true
  · rw [if_pos hc]
    exact List.indexOf_lt_length.2 (by simpa using hc)
  · rw [if_neg hc]
    omega

/-- Witness for C8 at a concrete input: the robot supplies exactly the
ten configured default names, and slot 1 resolves to a valid index. -/
theorem claim8_binding_witness :
    ((build_anim_index_for_key (build_anim_names default_anims_for_keys)).get? 1 =
      some (if (build_anim_names default_anims_for_keys).contains
                ("anim_blackjack_victorwin_01")
            then (build_anim_names default_anims_for_keys).indexOf
                ("anim_blackjack_victorwin_01")
            else 1))
    ∧ (10 ≤ (build_anim_names default_anims_for_keys).length →
        (if (build_anim_names default_anims_for_keys).contains
              ("anim_blackjack_victorwin_01")
         then (build_anim_names default_anims_for_keys).indexOf
              ("anim_blackjack_victorwin_01")
         else 1) < (build_anim_names default_anims_for_keys).length) :=
  claim8_binding_amended default_anims_for_keys 1 _ rfl

/-- Counterexample to claim C9 as stated: a robot list repeating one
(non-blocked) name yields a catalog holding that name twice — the
construction does not deduplicate. -/
theorem claim9_counterexample :
    (build_anim_names ["anim_x", "anim_x"]).count ("anim_x") = 2 := by
  rw [build_anim_names_count]
  simp [bad_anim_names]

/-- Claim C9 amended: the catalog is alphabetically sorted and contains
exactly the supplied names that are not in the blocklist, counted with
multiplicity — names are filtered and sorted but not deduplicated, so a
name supplied twice appears twice. -/
theorem claim9_catalog_amended :
    ∀ names : List String,
      List.Sorted (fun a b : String => a ≤ b) (build_anim_names names)
      ∧ ∀ n : String, (build_anim_names names).count n =
          if n ∈ bad_anim_names then 0 else names.count n :=
  fun names =>
    ⟨build_anim_names_sorted names, fun n => build_anim_names_count names n⟩

/-! ## Binding writes and digit-release lookup (C10) -/

/-- Claim C10: `set_anim` stores any supplied index unchecked, and
resolving the matching digit key succeeds exactly when the stored index
is within the catalog: with a 10-slot binding table and slot `d < 10`
overwritten to `i`, the release-time lookup of key `48 + d` returns a
name iff `i` is less than the catalog length — so an out-of-range stored
index makes the lookup fail instead of returning a name. -/
theorem claim10_lookup_guard :
    ∀ (s : RCState) (d i : Nat), d < 10 →
      s.anim_index_for_key.length = 10 →
      ((set_anim s d i).anim_index_for_key.get? d = some i)
      ∧ ((key_code_to_anim_name (set_anim s d i) (48 + d)).isSome = true ↔
          i < s.anim_names.length) := by
  intro s d i hd hlen
  have hset : (set_anim s d i).anim_index_for_key.get? d = some i := by
    show (s.anim_index_for_key.set d i).get? d = some i
    rw [List.get?_set_eq, List.get?_eq_get (by omega)]
    rfl
  refine ⟨hset, ?_⟩
  unfold key_code_to_anim_name
  rw [show 48 + d - 48 = d from by omega]
  simp only [hset]
  exact get?_isSome_iff s.anim_names i

/-- A concrete controller state for the C10 witness: catalog of length 1,
binding table of the full 10 slots. -/
def ex_state : RCState :=
  { s_hold_w with
    anim_names := ["anim_turn_left_01"]
    anim_index_for_key := [0, 0, 0, 0, 0, 0, 0, 0, 0, 0] }

/-- Witness for C10 at a concrete input: storing out-of-range index 5
into slot 3 of a 1-animation session makes the digit-3 release lookup
fail. -/
theorem claim10_lookup_witness :
    ((set_anim ex_state 3 5).anim_index_for_key.get? 3 = some 5)
    ∧ ((key_code_to_anim_name (set_anim ex_state 3 5) (48 + 3)).isSome = true ↔
        5 < ex_state.anim_names.length) :=
  claim10_lookup_guard ex_state 3 5 (by decide) rfl

end VectorRC
